import Mathlib

/-
Verification of the mesh-building pipeline orchestrator in
src/conda_package/mpas_tools/mesh/creation/build_mesh.py.

The orchestrator is embedded shallowly: the function build_mesh is modelled
as a pure Lean function from the configuration options and an environment
(the outputs of the user-supplied generator module and the success or
failure of each external collaborator stage) to an event trace together
with an outcome.  Each call the Python code makes to a collaborator, each
file it writes and each line it prints becomes one trace event, in program
order; a collaborator raising an exception becomes an error outcome whose
trace stops at that point, mirroring Python exception propagation with no
rollback.
-/

namespace BuildMesh

/-- A 2D numeric field of cell widths, as returned by the generator. -/
abbrev Field := List (List Rat)

/-- The keyword arguments of build_mesh, in source order:
preserve_floodplain=False, floodplain_elevation=20.0,
do_inject_bathymetry=False, geometry=sphere, plot_cellWidth=True. -/
structure Options where
  preserve_floodplain : Bool
  floodplain_elevation : Rat
  do_inject_bathymetry : Bool
  geometry : String
  plot_cellWidth : Bool
deriving DecidableEq, Repr

/-- The defaults of build_mesh as written in the source. -/
def defaultOptions : Options := ⟨false, 20, false, "sphere", true⟩

/-- Output of the user module function cellWidthVsLatLon: a 2D cellWidth
field plus 1D lon and lat coordinate arrays. -/
structure SphereGenOutput where
  cellWidth : Field
  lon : List Rat
  lat : List Rat
deriving DecidableEq, Repr

/-- Output of the user module function cellWidthVsXY: a 2D cellWidth field,
1D x and y coordinate arrays, and a bounding polygon given by a point list
and an edge list. -/
structure PlaneGenOutput where
  cellWidth : Field
  x : List Rat
  y : List Rat
  geom_points : List (Rat × Rat)
  geom_edges : List (Nat × Nat)
deriving DecidableEq, Repr

/-- The environment of one run: what the user-supplied generator module
returns and whether each external collaborator succeeds when invoked.
defineBaseMeshPresent records whether the module define_base_mesh can be
imported from the working directory at all. -/
structure Env where
  defineBaseMeshPresent : Bool
  sphereGen : SphereGenOutput
  planeGen : PlaneGenOutput
  jigsawFails : Bool
  jigsawToNetcdfFails : Bool
  convertFails : Bool
  injectMeshDensityFails : Bool
  bathymetrySourcePresent : Bool
  injectFloodplainFails : Bool
  extractVtkFails : Bool
deriving DecidableEq, Repr

/-- Errors: a failed import of the user module, a collaborator stage
raising (tagged with the stage name, propagated unchanged), or the
mesh-generation engine rejecting a planar run without a valid non-empty
boundary-edge list. -/
inductive PErr where
  | importError (moduleName : String)
  | collaboratorError (stage : String)
  | boundaryEdgesMissing
deriving DecidableEq, Repr

/-- One observable event of a run, in program order. -/
inductive Event where
  | printE (s : String)
  | densityFileWritten (name : String) (cellWidth : Field) (a1 a2 : List Rat)
  | plotSaved (name : String)
  | jigsawInvoked (cellWidth : Field) (a1 a2 : List Rat) (onSphere : Bool)
      (geomPoints : Option (List (Rat × Rat))) (geomEdges : Option (List (Nat × Nat)))
  | rawMeshGenerated
  | jigsawToNetcdf (mshName outName : String) (onSphere : Bool)
  | meshFileWritten (name : String)
  | injectMeshDensityInvoked (cwName meshName : String) (onSphere : Bool)
  | injectBathymetryInvoked (meshName : String)
  | injectFloodplainInvoked (meshName : String) (elevation : Rat)
  | extractVtkInvoked (pattern outDir : String)
deriving DecidableEq, Repr

instance {ε α : Type} [DecidableEq ε] [DecidableEq α] : DecidableEq (Except ε α) :=
  fun x y =>
  match x, y with
  | Except.ok a, Except.ok b =>
      if h : a = b then isTrue (h ▸ rfl)
      else isFalse (fun hh => h (by injection hh))
  | Except.error a, Except.error b =>
      if h : a = b then isTrue (h ▸ rfl)
      else isFalse (fun hh => h (by injection hh))
  | Except.ok _, Except.error _ => isFalse (fun hh => Except.noConfusion hh)
  | Except.error _, Except.ok _ => isFalse (fun hh => Except.noConfusion hh)

/-- The result of a run: the trace of events that happened before the run
finished or aborted, and the outcome.  A successful Python build_mesh call
returns None, modelled as Except.ok none; the payload of ok is the value
the Python function returns. -/
structure RunResult where
  trace : List Event
  outcome : Except PErr (Option String)
deriving DecidableEq, Repr

/-- Modelled from the spec: the mesh-generation engine jigsaw_driver
(mpas_tools.mesh.creation.jigsaw_driver) is repository code that is not
under src/.  Per the spec, in planar mode the engine requires a valid
non-empty boundary-edge list (absence of a valid non-empty boundary-edge
list is a configuration error), and any engine failure propagates fatally
with the engine diagnostic.  engineFails abstracts any other failure of
this external, resource-heavy stage. -/
def jigsaw_driver (on_sphere : Bool) (geomEdges : Option (List (Nat × Nat)))
    (engineFails : Bool) : Except PErr Unit :=
  if on_sphere then
    if engineFails then Except.error (PErr.collaboratorError "jigsaw_driver")
    else Except.ok ()
  else
    match geomEdges with
    | some (_ :: _) =>
        if engineFails then Except.error (PErr.collaboratorError "jigsaw_driver")
        else Except.ok ()
    | _ => Except.error PErr.boundaryEdgesMissing

/-- Step 8 of build_mesh: the vtk export, followed by the closing banner
prints announcing the final mesh file. -/
def fromStep8 (env : Env) (t : List Event) : RunResult :=
  let t := t ++ [Event.printE "Step 8. Create vtk file for visualization",
                 Event.extractVtkInvoked "base_mesh.nc" "base_mesh_vtk"]
  if env.extractVtkFails then ⟨t, Except.error (PErr.collaboratorError "extract_vtk")⟩
  else
    let t := t ++ [Event.printE "***********************************************",
                   Event.printE "**    The global mesh file is base_mesh.nc   **",
                   Event.printE "***********************************************"]
    ⟨t, Except.ok none⟩

/-- Step 7 of build_mesh: the optional floodplain injection guarded by
preserve_floodplain, passing floodplain_elevation, then step 8. -/
def fromStep7 (opts : Options) (env : Env) (t : List Event) : RunResult :=
  if opts.preserve_floodplain then
    let t := t ++ [Event.printE "Step 7. Injecting flag to preserve floodplain",
                   Event.injectFloodplainInvoked "base_mesh.nc" opts.floodplain_elevation]
    if env.injectFloodplainFails then
      ⟨t, Except.error (PErr.collaboratorError "inject_preserve_floodplain")⟩
    else fromStep8 env t
  else fromStep8 env t

/-- Steps 2 through 8 of build_mesh, shared by the two geometry branches of
step 1: mesh generation with JIGSAW, conversion of the raw mesh to netcdf
triangles, conversion to the MPAS mesh base_mesh.nc, density injection, the
optional bathymetry injection, then fromStep7. -/
def afterStep1 (opts : Options) (env : Env) (on_sphere : Bool) (cw_filename : String)
    (cellWidth : Field) (a1 a2 : List Rat)
    (geomPoints : Option (List (Rat × Rat))) (geomEdges : Option (List (Nat × Nat)))
    (t : List Event) : RunResult :=
  let t := t ++ [Event.printE "Step 2. Generate mesh with JIGSAW",
                 Event.jigsawInvoked cellWidth a1 a2 on_sphere geomPoints geomEdges]
  match jigsaw_driver on_sphere geomEdges env.jigsawFails with
  | Except.error e => ⟨t, Except.error e⟩
  | Except.ok _ =>
    let t := t ++ [Event.rawMeshGenerated]
    let t := t ++ [Event.printE "Step 3. Convert triangles from jigsaw format to netcdf",
                   Event.jigsawToNetcdf "mesh-MESH.msh" "mesh_triangles.nc" on_sphere]
    if env.jigsawToNetcdfFails then
      ⟨t, Except.error (PErr.collaboratorError "jigsaw_to_netcdf")⟩
    else
      let t := t ++ [Event.printE "Step 4. Convert from triangles to MPAS mesh"]
      if env.convertFails then ⟨t, Except.error (PErr.collaboratorError "convert")⟩
      else
        let t := t ++ [Event.meshFileWritten "base_mesh.nc"]
        let t := t ++ [Event.printE "Step 5. Inject correct meshDensity variable into base mesh file",
                       Event.injectMeshDensityInvoked cw_filename "base_mesh.nc" on_sphere]
        if env.injectMeshDensityFails then
          ⟨t, Except.error (PErr.collaboratorError "inject_meshDensity")⟩
        else
          if opts.do_inject_bathymetry then
            let t := t ++ [Event.printE "Step 6. Injecting bathymetry",
                           Event.injectBathymetryInvoked "base_mesh.nc"]
            if env.bathymetrySourcePresent then fromStep7 opts env t
            else ⟨t, Except.error (PErr.collaboratorError "inject_bathymetry")⟩
          else fromStep7 opts env t

/-- The body of build_mesh.  Step 1 branches on the geometry mode: the
sphere branch calls cellWidthVsLatLon, persists the density field as
cellWidthVsLatLon.nc and unconditionally overrides plot_cellWidth to true
before the plot is produced (saved to cellWidthGlobal.png); every other
geometry value takes the planar branch, which calls cellWidthVsXY and
persists the density field as cellWidthVsXY.nc with no plot.  The rest of
the pipeline is afterStep1. -/
def buildMesh (opts : Options) (env : Env) : RunResult :=
  let on_sphere := opts.geometry == "sphere"
  let t : List Event :=
    [Event.printE "Step 1. Build cellWidth array as function of horizontal coordinates"]
  if on_sphere then
    let g := env.sphereGen
    let cw_filename := "cellWidthVsLatLon.nc"
    let t := t ++ [Event.densityFileWritten cw_filename g.cellWidth g.lat g.lon]
    let plot_cellWidth := true
    let t := if plot_cellWidth then t ++ [Event.plotSaved "cellWidthGlobal.png"] else t
    afterStep1 opts env on_sphere cw_filename g.cellWidth g.lon g.lat none none t
  else
    let g := env.planeGen
    let cw_filename := "cellWidthVsXY.nc"
    let t := t ++ [Event.densityFileWritten cw_filename g.cellWidth g.y g.x]
    afterStep1 opts env on_sphere cw_filename g.cellWidth g.x g.y
      (some g.geom_points) (some g.geom_edges) t

/-- Module-level events of the script: the import of define_base_mesh runs
when the module is loaded, before main parses CLI arguments and before
build_mesh is called. -/
inductive TopEvent where
  | importedDefineBaseMesh
  | parsedArgs
  | calledBuildMesh
deriving DecidableEq, Repr

/-- Running the script as a program: the module body first imports
define_base_mesh from the working directory; only if that import succeeds
does main run, parse the CLI arguments into opts and call build_mesh.
Returns the module-level events, the pipeline trace and the outcome. -/
def runScript (env : Env) (opts : Options) :
    List TopEvent × List Event × Except PErr (Option String) :=
  if env.defineBaseMeshPresent then
    let r := buildMesh opts env
    ([TopEvent.importedDefineBaseMesh, TopEvent.parsedArgs, TopEvent.calledBuildMesh],
     r.trace, r.outcome)
  else
    ([], [], Except.error (PErr.importError "define_base_mesh"))

/-- Event classifiers used to state properties about traces. -/
def isPlotSaved : Event → Bool
  | Event.plotSaved _ => true
  | _ => false

def isDensityWrite : Event → Bool
  | Event.densityFileWritten _ _ _ _ => true
  | _ => false

def isDensityWriteNamed (name : String) : Event → Bool
  | Event.densityFileWritten n _ _ _ => n == name
  | _ => false

def isJigsawInvoked : Event → Bool
  | Event.jigsawInvoked _ _ _ _ _ _ => true
  | _ => false

def isRawMeshGenerated : Event → Bool
  | Event.rawMeshGenerated => true
  | _ => false

def isMeshWritten : Event → Bool
  | Event.meshFileWritten _ => true
  | _ => false

def isInjectDensity : Event → Bool
  | Event.injectMeshDensityInvoked _ _ _ => true
  | _ => false

def isInjectBathymetry : Event → Bool
  | Event.injectBathymetryInvoked _ => true
  | _ => false

def isInjectFloodplain : Event → Bool
  | Event.injectFloodplainInvoked _ _ => true
  | _ => false

def isExtractVtk : Event → Bool
  | Event.extractVtkInvoked _ _ => true
  | _ => false

/-- Every density-injection event in the trace reads its density field from
the file of the given name. -/
def injectReadsFrom (name : String) : Event → Bool
  | Event.injectMeshDensityInvoked c _ _ => c == name
  | _ => true

/-- Scans the trace in order and checks that no event satisfying q occurs
before the first event satisfying p: true when q only ever happens after p
has already happened (vacuously true when q never happens). -/
def priorTo (p q : Event → Bool) : List Event → Bool
  | [] => true
  | e :: rest => if q e then false else if p e then true else priorTo p q rest

/-- The mode-dependent name under which the serialized density field is
persisted by step 1 of buildMesh. -/
def cwFilenameFor (opts : Options) : String :=
  if opts.geometry == "sphere" then "cellWidthVsLatLon.nc" else "cellWidthVsXY.nc"

/-- True when every external collaborator up to and including density
injection succeeds on this run, so that the optional stages of steps 6 and
7 are reached. -/
def reachesOptionalStages (opts : Options) (env : Env) : Bool :=
  !env.jigsawFails && !env.jigsawToNetcdfFails && !env.convertFails &&
    !env.injectMeshDensityFails &&
    (opts.geometry == "sphere" || !env.planeGen.geom_edges.isEmpty)

/-- A concrete healthy environment: the generator module is present and
returns small well-formed fields, every collaborator succeeds, and a
bathymetry source file is present. -/
def goodEnv : Env :=
  ⟨true, ⟨[[1]], [0], [0]⟩, ⟨[[1]], [0], [0], [(0, 0), (1, 0)], [(0, 1)]⟩,
   false, false, false, false, true, false, false⟩

/-- The healthy environment with no bathymetry source file in the working
directory. -/
def noBathymetryEnv : Env :=
  ⟨true, ⟨[[1]], [0], [0]⟩, ⟨[[1]], [0], [0], [(0, 0), (1, 0)], [(0, 1)]⟩,
   false, false, false, false, false, false, false⟩

/-- The healthy environment whose planar generator returns an empty
boundary-edge list. -/
def emptyEdgesEnv : Env :=
  ⟨true, ⟨[[1]], [0], [0]⟩, ⟨[[1]], [0], [0], [(0, 0), (1, 0)], []⟩,
   false, false, false, false, true, false, false⟩

/-- Every floodplain-injection event in the trace carries the given
threshold elevation. -/
def floodUsesElevation (v : Rat) : Event → Bool
  | Event.injectFloodplainInvoked _ e => e == v
  | _ => true

/-- True when every collaborator up to density injection succeeds and,
when bathymetry injection is requested, its source file is present, so
that the optional stages behave as configured. -/
def normalRun (opts : Options) (env : Env) : Bool :=
  reachesOptionalStages opts env
    && (!opts.do_inject_bathymetry || env.bathymetrySourcePresent)

end BuildMesh

namespace BuildMesh

lemma priorTo_append_absent (p q : Event → Bool) (t s : List Event)
    (h : ∀ e ∈ t, p e = false ∧ q e = false) :
    priorTo p q (t ++ s) = priorTo p q s := by
  induction t with
  | nil => rfl
  | cons e rest ih =>
      have he := h e (List.mem_cons_self e rest)
      simp [priorTo, he.1, he.2]
      exact ih (fun x hx => h x (List.mem_cons_of_mem e hx))

lemma priorTo_prefix_found (p q : Event → Bool) (t l : List Event)
    (h1 : priorTo p q t = true) (h2 : t.any p = true) (h3 : t <+: l) :
    priorTo p q l = true := by
  obtain ⟨s, rfl⟩ := h3
  induction t with
  | nil => simp at h2
  | cons e rest ih =>
      by_cases hq : q e = true
      · simp [priorTo, hq] at h1
      · rw [Bool.not_eq_true] at hq
        by_cases hp : p e = true
        · simp [priorTo, hq, hp]
        · rw [Bool.not_eq_true] at hp
          simp [priorTo, hq, hp] at h1 ⊢
          exact ih h1 (by simpa [hp] using h2)

lemma fromStep8_extendsTrace (env : Env) (t : List Event) : t <+: (fromStep8 env t).trace := by
  simp only [fromStep8]
  split
  · exact List.prefix_append t _
  · exact (List.prefix_append t _).trans (List.prefix_append _ _)

lemma fromStep7_extendsTrace (opts : Options) (env : Env) (t : List Event) :
    t <+: (fromStep7 opts env t).trace := by
  simp only [fromStep7]
  split
  · split
    · exact List.prefix_append t _
    · exact (List.prefix_append t _).trans (fromStep8_extendsTrace env _)
  · exact fromStep8_extendsTrace env t

lemma afterStep1_extendsTrace (opts : Options) (env : Env) (on_sphere : Bool)
    (cw_filename : String) (cellWidth : Field) (a1 a2 : List Rat)
    (gp : Option (List (Rat × Rat))) (ge : Option (List (Nat × Nat))) (t : List Event) :
    (t ++ [Event.printE "Step 2. Generate mesh with JIGSAW",
           Event.jigsawInvoked cellWidth a1 a2 on_sphere gp ge]) <+:
      (afterStep1 opts env on_sphere cw_filename cellWidth a1 a2 gp ge t).trace := by
  simp only [afterStep1]
  repeat' split
  all_goals repeat' first
    | exact List.prefix_rfl
    | exact List.prefix_append _ _
    | refine List.IsPrefix.trans ?_ (fromStep7_extendsTrace _ _ _)
    | refine List.IsPrefix.trans ?_ (List.prefix_append _ _)

lemma fromStep8_any_eq (p : Event → Bool) (env : Env) (t : List Event)
    (hPrint : ∀ s, p (Event.printE s) = false)
    (hVtk : ∀ a b, p (Event.extractVtkInvoked a b) = false) :
    (fromStep8 env t).trace.any p = t.any p := by
  simp only [fromStep8]
  split <;> simp [hPrint, hVtk]

lemma fromStep7_any_eq (p : Event → Bool) (opts : Options) (env : Env) (t : List Event)
    (hPrint : ∀ s, p (Event.printE s) = false)
    (hVtk : ∀ a b, p (Event.extractVtkInvoked a b) = false)
    (hFlood : ∀ a e, p (Event.injectFloodplainInvoked a e) = false) :
    (fromStep7 opts env t).trace.any p = t.any p := by
  simp only [fromStep7]
  repeat' split
  all_goals first
    | rw [fromStep8_any_eq p _ _ hPrint hVtk]
      try simp [hPrint, hVtk, hFlood]
    | simp [hPrint, hVtk, hFlood]

lemma afterStep1_any_eq (p : Event → Bool) (opts : Options) (env : Env) (on_sphere : Bool)
    (cw_filename : String) (cellWidth : Field) (a1 a2 : List Rat)
    (gp : Option (List (Rat × Rat))) (ge : Option (List (Nat × Nat))) (t : List Event)
    (hPrint : ∀ s, p (Event.printE s) = false)
    (hJig : ∀ f b1 b2 os q r, p (Event.jigsawInvoked f b1 b2 os q r) = false)
    (hRaw : p Event.rawMeshGenerated = false)
    (hJ2n : ∀ a b os, p (Event.jigsawToNetcdf a b os) = false)
    (hMesh : ∀ a, p (Event.meshFileWritten a) = false)
    (hInjD : ∀ a b os, p (Event.injectMeshDensityInvoked a b os) = false)
    (hBath : ∀ a, p (Event.injectBathymetryInvoked a) = false)
    (hFlood : ∀ a e, p (Event.injectFloodplainInvoked a e) = false)
    (hVtk : ∀ a b, p (Event.extractVtkInvoked a b) = false) :
    (afterStep1 opts env on_sphere cw_filename cellWidth a1 a2 gp ge t).trace.any p
      = t.any p := by
  simp only [afterStep1]
  repeat' split
  all_goals first
    | rw [fromStep7_any_eq p _ _ _ hPrint hVtk hFlood]
      try simp [hPrint, hJig, hRaw, hJ2n, hMesh, hInjD, hBath]
    | simp [hPrint, hJig, hRaw, hJ2n, hMesh, hInjD, hBath]

/-- C1: for every run, the diagnostic cell-width plot artifact is produced
if and only if the geometry option is sphere, whatever the caller passed
for plot_cellWidth: the sphere branch overrides the flag to true, and the
planar branch never plots. -/
theorem c1_plot_iff_sphere (opts : Options) (env : Env) :
    ((buildMesh opts env).trace.any isPlotSaved) = (opts.geometry == "sphere") := by
  cases h : opts.geometry == "sphere" <;>
    simp only [buildMesh, h, if_true, if_false, Bool.false_eq_true, ite_false, ite_true] <;>
    rw [afterStep1_any_eq isPlotSaved] <;>
    simp [isPlotSaved]

lemma fromStep8_all_eq (q : Event → Bool) (env : Env) (t : List Event)
    (hPrint : ∀ s, q (Event.printE s) = true)
    (hVtk : ∀ a b, q (Event.extractVtkInvoked a b) = true) :
    (fromStep8 env t).trace.all q = t.all q := by
  simp only [fromStep8]
  split <;> simp [hPrint, hVtk]

lemma fromStep7_all_eq (q : Event → Bool) (opts : Options) (env : Env) (t : List Event)
    (hPrint : ∀ s, q (Event.printE s) = true)
    (hVtk : ∀ a b, q (Event.extractVtkInvoked a b) = true)
    (hFlood : q (Event.injectFloodplainInvoked "base_mesh.nc" opts.floodplain_elevation) = true) :
    (fromStep7 opts env t).trace.all q = t.all q := by
  simp only [fromStep7]
  repeat' split
  all_goals first
    | rw [fromStep8_all_eq q _ _ hPrint hVtk]
      try simp [hPrint, hVtk, hFlood]
    | simp [hPrint, hVtk, hFlood]

lemma afterStep1_all_eq (q : Event → Bool) (opts : Options) (env : Env) (on_sphere : Bool)
    (cw_filename : String) (cellWidth : Field) (a1 a2 : List Rat)
    (gp : Option (List (Rat × Rat))) (ge : Option (List (Nat × Nat))) (t : List Event)
    (hPrint : ∀ s, q (Event.printE s) = true)
    (hJig : ∀ f b1 b2 os r1 r2, q (Event.jigsawInvoked f b1 b2 os r1 r2) = true)
    (hRaw : q Event.rawMeshGenerated = true)
    (hJ2n : ∀ a b os, q (Event.jigsawToNetcdf a b os) = true)
    (hMesh : ∀ a, q (Event.meshFileWritten a) = true)
    (hInjD : q (Event.injectMeshDensityInvoked cw_filename "base_mesh.nc" on_sphere) = true)
    (hBath : q (Event.injectBathymetryInvoked "base_mesh.nc") = true)
    (hFlood : q (Event.injectFloodplainInvoked "base_mesh.nc" opts.floodplain_elevation) = true)
    (hVtk : ∀ a b, q (Event.extractVtkInvoked a b) = true) :
    (afterStep1 opts env on_sphere cw_filename cellWidth a1 a2 gp ge t).trace.all q
      = t.all q := by
  simp only [afterStep1]
  repeat' split
  all_goals first
    | rw [fromStep7_all_eq q _ _ _ hPrint hVtk hFlood]
      try simp [hPrint, hJig, hRaw, hJ2n, hMesh, hInjD, hBath]
    | simp [hPrint, hJig, hRaw, hJ2n, hMesh, hInjD, hBath]

/-- C5: the serialized density field is persisted under the mode-dependent
name cellWidthVsLatLon.nc in sphere mode and cellWidthVsXY.nc in plane
mode, the two names are distinct, and every density-injection invocation
of the run reads the file persisted under that same name. -/
theorem c5_density_file_name (opts : Options) (env : Env) :
    ((buildMesh opts env).trace.any (isDensityWriteNamed (cwFilenameFor opts)) = true)
      ∧ ((buildMesh opts env).trace.all (injectReadsFrom (cwFilenameFor opts)) = true)
      ∧ ("cellWidthVsLatLon.nc" : String) ≠ "cellWidthVsXY.nc" := by
  refine ⟨?_, ?_, by decide⟩ <;>
    cases h : opts.geometry == "sphere" <;>
      simp only [buildMesh, h, if_true, if_false, Bool.false_eq_true, ite_false, ite_true]
  · rw [afterStep1_any_eq (isDensityWriteNamed (cwFilenameFor opts))] <;>
      simp [isDensityWriteNamed, cwFilenameFor, h]
  · rw [afterStep1_any_eq (isDensityWriteNamed (cwFilenameFor opts))] <;>
      simp [isDensityWriteNamed, cwFilenameFor, h]
  · rw [afterStep1_all_eq (injectReadsFrom (cwFilenameFor opts))] <;>
      simp [injectReadsFrom, cwFilenameFor, h]
  · rw [afterStep1_all_eq (injectReadsFrom (cwFilenameFor opts))] <;>
      simp [injectReadsFrom, cwFilenameFor, h]

lemma priorTo_t_append (p q : Event → Bool) (t s : List Event)
    (h : ∀ e ∈ t, p e = false ∧ q e = false) (hs : priorTo p q s = true) :
    priorTo p q (t ++ s) = true := by
  rw [priorTo_append_absent p q t s h]
  exact hs

lemma afterStep1_mesh_before_inject (opts : Options) (env : Env) (on_sphere : Bool)
    (cw_filename : String) (cellWidth : Field) (a1 a2 : List Rat)
    (gp : Option (List (Rat × Rat))) (ge : Option (List (Nat × Nat))) (t : List Event)
    (ht : ∀ e ∈ t, isMeshWritten e = false ∧ isInjectDensity e = false) :
    priorTo isMeshWritten isInjectDensity
      (afterStep1 opts env on_sphere cw_filename cellWidth a1 a2 gp ge t).trace = true := by
  simp only [afterStep1]
  repeat' split
  all_goals try refine priorTo_prefix_found _ _ _ _ ?_ ?_ (fromStep7_extendsTrace _ _ _)
  all_goals simp only [List.append_assoc]
  all_goals first
    | apply priorTo_t_append _ _ _ _ ht
      simp [priorTo, isMeshWritten, isInjectDensity]
    | simp [isMeshWritten]

lemma afterStep1_any_jig (opts : Options) (env : Env) (on_sphere : Bool)
    (cw_filename : String) (cellWidth : Field) (a1 a2 : List Rat)
    (gp : Option (List (Rat × Rat))) (ge : Option (List (Nat × Nat))) (t : List Event) :
    (afterStep1 opts env on_sphere cw_filename cellWidth a1 a2 gp ge t).trace.any
      isJigsawInvoked = true := by
  simp only [afterStep1]
  repeat' split
  all_goals first
    | rw [fromStep7_any_eq isJigsawInvoked] <;> simp [isJigsawInvoked]
    | simp [isJigsawInvoked]

lemma buildMesh_any_jigsaw (opts : Options) (env : Env) :
    (buildMesh opts env).trace.any isJigsawInvoked = true := by
  cases h : opts.geometry == "sphere" <;>
    simp only [buildMesh, h, if_true, if_false, Bool.false_eq_true, ite_false, ite_true] <;>
    exact afterStep1_any_jig _ _ _ _ _ _ _ _ _ _

/-- C4: on every execution path of every run, the serialized density field
is persisted before the mesh-generation engine is invoked, the engine is
always invoked, and the final mesh file base_mesh.nc is written before any
density-injection invocation. -/
theorem c4_stage_ordering (opts : Options) (env : Env) :
    ((buildMesh opts env).trace.any isDensityWrite = true)
      ∧ ((buildMesh opts env).trace.any isJigsawInvoked = true)
      ∧ (priorTo isDensityWrite isJigsawInvoked (buildMesh opts env).trace = true)
      ∧ (priorTo isMeshWritten isInjectDensity (buildMesh opts env).trace = true) := by
  cases h : opts.geometry == "sphere" <;>
    simp only [buildMesh, h, if_true, if_false, Bool.false_eq_true, ite_false, ite_true] <;>
    refine ⟨?_, ?_, ?_, ?_⟩
  all_goals try
    rw [afterStep1_any_eq isDensityWrite] <;> simp [isDensityWrite]
  all_goals try exact afterStep1_any_jig _ _ _ _ _ _ _ _ _ _
  all_goals try
    ( refine priorTo_prefix_found _ _ _ _ ?_ ?_ (afterStep1_extendsTrace _ _ _ _ _ _ _ _ _ _) <;>
        ( simp [priorTo, isDensityWrite, isJigsawInvoked]
          done ) )
  all_goals
    ( apply afterStep1_mesh_before_inject
      intro e he
      fin_cases he <;> simp [isMeshWritten, isInjectDensity] )
/-- C2 counterexample: a run whose geometry option is the invalid value
bogus is not rejected: it completes successfully and the mesh-generation
stage is executed, contradicting the claim that an invalid geometry value
is detected early and fatal with no mesh construction. -/
theorem c2_counterexample :
    (buildMesh ⟨false, 20, false, "bogus", false⟩ goodEnv).outcome = Except.ok none
      ∧ ((buildMesh ⟨false, 20, false, "bogus", false⟩ goodEnv).trace.any isJigsawInvoked
          = true) := by
  constructor <;> rfl

/-- C2 amended: the orchestrator never validates the geometry option; any
value other than sphere is treated exactly like plane, the full planar
pipeline runs, and the mesh-generation engine is invoked. -/
theorem c2_amended (pf : Bool) (fe : Rat) (ib : Bool) (g : String) (pc : Bool) (env : Env)
    (h : (g == "sphere") = false) :
    buildMesh ⟨pf, fe, ib, g, pc⟩ env = buildMesh ⟨pf, fe, ib, "plane", pc⟩ env
      ∧ ((buildMesh ⟨pf, fe, ib, g, pc⟩ env).trace.any isJigsawInvoked = true) := by
  constructor
  · have hp : (("plane" : String) == "sphere") = false := rfl
    simp only [buildMesh, hp, h, Bool.false_eq_true, if_false, ite_false]
    rfl
  · exact buildMesh_any_jigsaw ⟨pf, fe, ib, g, pc⟩ env

/-- C2 amended witness at a concrete invalid geometry value. -/
theorem c2_amended_witness :
    (("bogus" == "sphere") = false)
      ∧ (buildMesh ⟨false, 20, false, "bogus", false⟩ goodEnv
           = buildMesh ⟨false, 20, false, "plane", false⟩ goodEnv)
      ∧ ((buildMesh ⟨false, 20, false, "bogus", false⟩ goodEnv).trace.any isJigsawInvoked
          = true) :=
  ⟨rfl, (c2_amended false 20 false "bogus" false goodEnv rfl).1,
    (c2_amended false 20 false "bogus" false goodEnv rfl).2⟩

/-- C9: two runs whose options differ only in floodplain_elevation and both
have preserve_floodplain false are indistinguishable: same stage
invocations with the same arguments, same artifacts, same outcome. -/
theorem c9_floodplain_elevation_irrelevant (fe1 fe2 : Rat) (ib : Bool) (g : String)
    (pc : Bool) (env : Env) :
    buildMesh ⟨false, fe1, ib, g, pc⟩ env = buildMesh ⟨false, fe2, ib, g, pc⟩ env := by
  rfl

/-- C10: when the module define_base_mesh is absent from the working
directory, the script fails at module load, before argument parsing and
before build_mesh is called, and produces no artifact events at all. -/
theorem c10_import_at_load (env : Env) (opts : Options)
    (h : env.defineBaseMeshPresent = false) :
    runScript env opts = ([], [], Except.error (PErr.importError "define_base_mesh")) := by
  simp [runScript, h]

/-- C10 witness at a concrete environment lacking the generator module. -/
theorem c10_witness :
    ((⟨false, ⟨[[1]], [0], [0]⟩, ⟨[[1]], [0], [0], [(0, 0), (1, 0)], [(0, 1)]⟩,
        false, false, false, false, true, false, false⟩ : Env).defineBaseMeshPresent = false)
      ∧ runScript
          ⟨false, ⟨[[1]], [0], [0]⟩, ⟨[[1]], [0], [0], [(0, 0), (1, 0)], [(0, 1)]⟩,
            false, false, false, false, true, false, false⟩ defaultOptions
          = ([], [], Except.error (PErr.importError "define_base_mesh")) :=
  ⟨rfl, c10_import_at_load _ _ rfl⟩

/-- C3 counterexample: a successful run with the default options returns
None (modelled as the ok payload none), not the final mesh location, so
the public operation does not return the location of the final mesh. -/
theorem c3_counterexample :
    (buildMesh defaultOptions goodEnv).outcome = Except.ok none
      ∧ (buildMesh defaultOptions goodEnv).outcome ≠ Except.ok (some "base_mesh.nc") := by
  constructor
  · rfl
  · intro h
    rw [show (buildMesh defaultOptions goodEnv).outcome = Except.ok none from rfl] at h
    simp at h

lemma fromStep8_ok_mem (env : Env) (t : List Event) (r : Option String)
    (h : (fromStep8 env t).outcome = Except.ok r) :
    r = none ∧ Event.printE "**    The global mesh file is base_mesh.nc   **"
        ∈ (fromStep8 env t).trace := by
  simp only [fromStep8] at h ⊢
  split at h <;> rename_i hc
  · simp at h
  · have hr : r = none := by simpa using h.symm
    subst hr
    refine ⟨rfl, ?_⟩
    rw [if_neg hc]
    simp

lemma fromStep7_ok_mem (opts : Options) (env : Env) (t : List Event) (r : Option String)
    (h : (fromStep7 opts env t).outcome = Except.ok r) :
    r = none ∧ Event.printE "**    The global mesh file is base_mesh.nc   **"
        ∈ (fromStep7 opts env t).trace := by
  simp only [fromStep7] at h ⊢
  split at h <;> rename_i hpf
  · split at h <;> rename_i hff
    · simp at h
    · obtain ⟨hr, hb⟩ := fromStep8_ok_mem _ _ _ h
      refine ⟨hr, ?_⟩
      rw [if_pos hpf, if_neg hff]
      exact hb
  · obtain ⟨hr, hb⟩ := fromStep8_ok_mem _ _ _ h
    refine ⟨hr, ?_⟩
    rw [if_neg hpf]
    exact hb

lemma afterStep1_ok_mem (opts : Options) (env : Env) (on_sphere : Bool)
    (cw_filename : String) (cellWidth : Field) (a1 a2 : List Rat)
    (gp : Option (List (Rat × Rat))) (ge : Option (List (Nat × Nat)))
    (t : List Event) (r : Option String)
    (h : (afterStep1 opts env on_sphere cw_filename cellWidth a1 a2 gp ge t).outcome
           = Except.ok r) :
    r = none
      ∧ Event.meshFileWritten "base_mesh.nc"
          ∈ (afterStep1 opts env on_sphere cw_filename cellWidth a1 a2 gp ge t).trace
      ∧ Event.printE "**    The global mesh file is base_mesh.nc   **"
          ∈ (afterStep1 opts env on_sphere cw_filename cellWidth a1 a2 gp ge t).trace := by
  simp only [afterStep1] at h ⊢
  split at h <;> rename_i u heq
  · simp at h
  · split at h <;> rename_i h2n
    · simp at h
    · split at h <;> rename_i hcv
      · simp at h
      · split at h <;> rename_i hid
        · simp at h
        · split at h <;> rename_i hib
          · split at h <;> rename_i hbs
            · obtain ⟨hr, hb⟩ := fromStep7_ok_mem _ _ _ _ h
              refine ⟨hr, ?_, ?_⟩ <;>
                rw [if_neg h2n, if_neg hcv, if_neg hid, if_pos hib, if_pos hbs]
              · exact (fromStep7_extendsTrace _ _ _).subset (by simp)
              · exact hb
            · simp at h
          · obtain ⟨hr, hb⟩ := fromStep7_ok_mem _ _ _ _ h
            refine ⟨hr, ?_, ?_⟩ <;>
              rw [if_neg h2n, if_neg hcv, if_neg hid, if_neg hib]
            · exact (fromStep7_extendsTrace _ _ _).subset (by simp)
            · exact hb

/-- C3 amended: build_mesh returns no value (None) on success; the final
mesh is persisted under the fixed name base_mesh.nc and its location is
announced by the closing banner print, rather than being returned. -/
theorem c3_amended (opts : Options) (env : Env) (r : Option String)
    (h : (buildMesh opts env).outcome = Except.ok r) :
    r = none ∧ Event.meshFileWritten "base_mesh.nc" ∈ (buildMesh opts env).trace
      ∧ Event.printE "**    The global mesh file is base_mesh.nc   **"
          ∈ (buildMesh opts env).trace := by
  cases hgeo : opts.geometry == "sphere" <;>
    simp only [buildMesh, hgeo, if_true, if_false, Bool.false_eq_true, ite_false,
      ite_true] at h ⊢ <;>
    exact afterStep1_ok_mem _ _ _ _ _ _ _ _ _ _ _ h

/-- C3 amended witness: the default-options run in the healthy environment
succeeds, returns None, and its trace holds the final mesh write and the
banner announcing base_mesh.nc. -/
theorem c3_amended_witness :
    ((buildMesh defaultOptions goodEnv).outcome = Except.ok none)
      ∧ (none = (none : Option String)
          ∧ Event.meshFileWritten "base_mesh.nc" ∈ (buildMesh defaultOptions goodEnv).trace
          ∧ Event.printE "**    The global mesh file is base_mesh.nc   **"
              ∈ (buildMesh defaultOptions goodEnv).trace) :=
  ⟨rfl, ⟨rfl, (c3_amended defaultOptions goodEnv none rfl).2⟩⟩

lemma afterStep1_optional_stages (opts : Options) (env : Env) (on_sphere : Bool)
    (cw_filename : String) (cellWidth : Field) (a1 a2 : List Rat)
    (gp : Option (List (Rat × Rat))) (ge : Option (List (Nat × Nat))) (t : List Event)
    (hjig : jigsaw_driver on_sphere ge env.jigsawFails = Except.ok ())
    (h2n : env.jigsawToNetcdfFails = false) (hcv : env.convertFails = false)
    (hid : env.injectMeshDensityFails = false)
    (hbs : opts.do_inject_bathymetry = true → env.bathymetrySourcePresent = true)
    (htb : t.any isInjectBathymetry = false)
    (htf : t.any isInjectFloodplain = false)
    (hte : t.all (floodUsesElevation opts.floodplain_elevation) = true) :
    ((afterStep1 opts env on_sphere cw_filename cellWidth a1 a2 gp ge t).trace.any
        isInjectBathymetry = opts.do_inject_bathymetry)
      ∧ ((afterStep1 opts env on_sphere cw_filename cellWidth a1 a2 gp ge t).trace.any
          isInjectFloodplain = opts.preserve_floodplain)
      ∧ ((afterStep1 opts env on_sphere cw_filename cellWidth a1 a2 gp ge t).trace.all
          (floodUsesElevation opts.floodplain_elevation) = true) := by
  cases hib : opts.do_inject_bathymetry <;>
    cases hpf : opts.preserve_floodplain <;>
      cases hff : env.injectFloodplainFails <;>
        cases hvtk : env.extractVtkFails <;>
          simp_all [afterStep1, fromStep7, fromStep8, isInjectBathymetry,
            isInjectFloodplain, floodUsesElevation, beq_self_eq_true]

/-- C6: in any run whose prior stages succeed, the bathymetry-injection
stage is invoked exactly when do_inject_bathymetry is set, the floodplain
stage is invoked exactly when preserve_floodplain is set, and every
floodplain invocation passes the floodplain_elevation option as the
threshold elevation. -/
theorem c6_optional_stages (opts : Options) (env : Env) (h : normalRun opts env = true) :
    ((buildMesh opts env).trace.any isInjectBathymetry = opts.do_inject_bathymetry)
      ∧ ((buildMesh opts env).trace.any isInjectFloodplain = opts.preserve_floodplain)
      ∧ ((buildMesh opts env).trace.all (floodUsesElevation opts.floodplain_elevation)
          = true) := by
  simp only [normalRun, reachesOptionalStages, Bool.and_eq_true, Bool.not_eq_true',
    Bool.or_eq_true] at h
  obtain ⟨⟨⟨⟨⟨hjf, h2n⟩, hcv⟩, hid⟩, hgeo⟩, hbath⟩ := h
  have hbs : opts.do_inject_bathymetry = true → env.bathymetrySourcePresent = true := by
    intro hib
    simpa [hib] using hbath
  cases hg : opts.geometry == "sphere" <;>
    simp only [buildMesh, hg, if_true, if_false, Bool.false_eq_true, ite_false, ite_true]
  · have hne : env.planeGen.geom_edges.isEmpty = false := by
      rcases hgeo with hgeo | hgeo
      · rw [hg] at hgeo; cases hgeo
      · simpa using hgeo
    obtain ⟨e0, es, hes⟩ : ∃ e0 es, env.planeGen.geom_edges = e0 :: es := by
      cases hE : env.planeGen.geom_edges with
      | nil => rw [hE] at hne; simp [List.isEmpty] at hne
      | cons e0 es => exact ⟨e0, es, rfl⟩
    have hjig : jigsaw_driver false (some env.planeGen.geom_edges) env.jigsawFails
        = Except.ok () := by
      rw [hes]
      simp [jigsaw_driver, hjf]
    exact afterStep1_optional_stages _ _ _ _ _ _ _ _ _ _ hjig h2n hcv hid hbs
      (by simp [isInjectBathymetry]) (by simp [isInjectFloodplain])
      (by simp [floodUsesElevation])
  · have hjig : jigsaw_driver true none env.jigsawFails = Except.ok () := by
      simp [jigsaw_driver, hjf]
    exact afterStep1_optional_stages _ _ _ _ _ _ _ _ _ _ hjig h2n hcv hid hbs
      (by simp [isInjectBathymetry]) (by simp [isInjectFloodplain])
      (by simp [floodUsesElevation])

/-- C6 witness: a sphere run with both optional stages requested in the
healthy environment invokes both and passes the configured elevation. -/
theorem c6_optional_stages_witness :
    (normalRun ⟨true, 20, true, "sphere", false⟩ goodEnv = true)
      ∧ ((buildMesh ⟨true, 20, true, "sphere", false⟩ goodEnv).trace.any isInjectBathymetry
          = true)
      ∧ ((buildMesh ⟨true, 20, true, "sphere", false⟩ goodEnv).trace.any isInjectFloodplain
          = true)
      ∧ ((buildMesh ⟨true, 20, true, "sphere", false⟩ goodEnv).trace.all
          (floodUsesElevation 20) = true) :=
  ⟨rfl, (c6_optional_stages ⟨true, 20, true, "sphere", false⟩ goodEnv rfl).1,
    (c6_optional_stages ⟨true, 20, true, "sphere", false⟩ goodEnv rfl).2.1,
    (c6_optional_stages ⟨true, 20, true, "sphere", false⟩ goodEnv rfl).2.2⟩

/-- C7: when bathymetry injection is requested but no bathymetry source is
present, and all prior stages succeed, the run aborts at the bathymetry
stage with the error of that stage propagated; the final mesh file has
been written and density injection has already run, the bathymetry stage was
invoked, and neither the floodplain stage nor the export stage runs. -/
theorem c7_bathymetry_failure (opts : Options) (env : Env)
    (h : reachesOptionalStages opts env = true)
    (hib : opts.do_inject_bathymetry = true)
    (hbs : env.bathymetrySourcePresent = false) :
    ((buildMesh opts env).outcome = Except.error (PErr.collaboratorError "inject_bathymetry"))
      ∧ ((buildMesh opts env).trace.any isMeshWritten = true)
      ∧ ((buildMesh opts env).trace.any isInjectDensity = true)
      ∧ ((buildMesh opts env).trace.any isInjectBathymetry = true)
      ∧ ((buildMesh opts env).trace.any isInjectFloodplain = false)
      ∧ ((buildMesh opts env).trace.any isExtractVtk = false) := by
  simp only [reachesOptionalStages, Bool.and_eq_true, Bool.not_eq_true',
    Bool.or_eq_true] at h
  obtain ⟨⟨⟨⟨hjf, h2n⟩, hcv⟩, hid⟩, hgeo⟩ := h
  cases hg : opts.geometry == "sphere" <;>
    simp only [buildMesh, hg, if_true, if_false, Bool.false_eq_true, ite_false, ite_true]
  · have hne : env.planeGen.geom_edges.isEmpty = false := by
      rcases hgeo with hgeo | hgeo
      · rw [hg] at hgeo; cases hgeo
      · simpa using hgeo
    obtain ⟨e0, es, hes⟩ : ∃ e0 es, env.planeGen.geom_edges = e0 :: es := by
      cases hE : env.planeGen.geom_edges with
      | nil => rw [hE] at hne; simp [List.isEmpty] at hne
      | cons e0 es => exact ⟨e0, es, rfl⟩
    have hjig : jigsaw_driver false (some env.planeGen.geom_edges) env.jigsawFails
        = Except.ok () := by
      rw [hes]
      simp [jigsaw_driver, hjf]
    simp [afterStep1, hjig, h2n, hcv, hid, hib, hbs, isMeshWritten, isInjectDensity,
      isInjectBathymetry, isInjectFloodplain, isExtractVtk]
  · have hjig : jigsaw_driver true none env.jigsawFails = Except.ok () := by
      simp [jigsaw_driver, hjf]
    simp [afterStep1, hjig, h2n, hcv, hid, hib, hbs, isMeshWritten, isInjectDensity,
      isInjectBathymetry, isInjectFloodplain, isExtractVtk]

/-- C7 witness: a concrete sphere run requesting bathymetry in an
environment with no bathymetry source aborts at the bathymetry stage with
the final mesh written and density injected, and no later stage runs. -/
theorem c7_bathymetry_failure_witness :
    (reachesOptionalStages ⟨false, 20, true, "sphere", false⟩ noBathymetryEnv = true)
      ∧ ((buildMesh ⟨false, 20, true, "sphere", false⟩ noBathymetryEnv).outcome
          = Except.error (PErr.collaboratorError "inject_bathymetry"))
      ∧ ((buildMesh ⟨false, 20, true, "sphere", false⟩ noBathymetryEnv).trace.any
          isMeshWritten = true)
      ∧ ((buildMesh ⟨false, 20, true, "sphere", false⟩ noBathymetryEnv).trace.any
          isInjectDensity = true)
      ∧ ((buildMesh ⟨false, 20, true, "sphere", false⟩ noBathymetryEnv).trace.any
          isInjectBathymetry = true)
      ∧ ((buildMesh ⟨false, 20, true, "sphere", false⟩ noBathymetryEnv).trace.any
          isInjectFloodplain = false)
      ∧ ((buildMesh ⟨false, 20, true, "sphere", false⟩ noBathymetryEnv).trace.any
          isExtractVtk = false) :=
  ⟨rfl, (c7_bathymetry_failure ⟨false, 20, true, "sphere", false⟩ noBathymetryEnv rfl rfl rfl).1,
    (c7_bathymetry_failure ⟨false, 20, true, "sphere", false⟩ noBathymetryEnv rfl rfl rfl).2.1,
    (c7_bathymetry_failure ⟨false, 20, true, "sphere", false⟩ noBathymetryEnv rfl rfl rfl).2.2.1,
    (c7_bathymetry_failure ⟨false, 20, true, "sphere", false⟩ noBathymetryEnv rfl rfl rfl).2.2.2.1,
    (c7_bathymetry_failure ⟨false, 20, true, "sphere", false⟩ noBathymetryEnv rfl rfl rfl).2.2.2.2.1,
    (c7_bathymetry_failure ⟨false, 20, true, "sphere", false⟩ noBathymetryEnv rfl rfl rfl).2.2.2.2.2⟩

/-- C8: every planar run consumes the boundary polygon returned by the
planar generator and passes it to the mesh-generation engine; when the
boundary-edge list is empty the run fails with the boundary configuration
error, no raw mesh is generated and no final mesh file is written. -/
theorem c8_plane_boundary (opts : Options) (env : Env)
    (h : (opts.geometry == "sphere") = false) :
    (Event.jigsawInvoked env.planeGen.cellWidth env.planeGen.x env.planeGen.y false
        (some env.planeGen.geom_points) (some env.planeGen.geom_edges)
        ∈ (buildMesh opts env).trace)
      ∧ (env.planeGen.geom_edges = [] →
          ((buildMesh opts env).outcome = Except.error PErr.boundaryEdgesMissing)
            ∧ ((buildMesh opts env).trace.any isRawMeshGenerated = false)
            ∧ ((buildMesh opts env).trace.any isMeshWritten = false)) := by
  constructor
  · simp only [buildMesh, h, Bool.false_eq_true, if_false, ite_false]
    exact (afterStep1_extendsTrace _ _ _ _ _ _ _ _ _ _).subset (by simp)
  · intro he
    have hjig : jigsaw_driver false (some env.planeGen.geom_edges) env.jigsawFails
        = Except.error PErr.boundaryEdgesMissing := by
      rw [he]
      rfl
    simp only [buildMesh, h, Bool.false_eq_true, if_false, ite_false]
    simp [afterStep1, hjig, isRawMeshGenerated, isMeshWritten]

/-- C8 witness: the concrete planar run whose generator returns an empty
boundary-edge list consumes the polygon and fails with the boundary
configuration error before any mesh is generated. -/
theorem c8_plane_boundary_witness :
    (("plane" == "sphere") = false)
      ∧ (Event.jigsawInvoked emptyEdgesEnv.planeGen.cellWidth emptyEdgesEnv.planeGen.x
          emptyEdgesEnv.planeGen.y false (some emptyEdgesEnv.planeGen.geom_points)
          (some emptyEdgesEnv.planeGen.geom_edges)
          ∈ (buildMesh ⟨false, 20, false, "plane", false⟩ emptyEdgesEnv).trace)
      ∧ ((buildMesh ⟨false, 20, false, "plane", false⟩ emptyEdgesEnv).outcome
          = Except.error PErr.boundaryEdgesMissing)
      ∧ ((buildMesh ⟨false, 20, false, "plane", false⟩ emptyEdgesEnv).trace.any
          isRawMeshGenerated = false)
      ∧ ((buildMesh ⟨false, 20, false, "plane", false⟩ emptyEdgesEnv).trace.any
          isMeshWritten = false) :=
  ⟨rfl, (c8_plane_boundary ⟨false, 20, false, "plane", false⟩ emptyEdgesEnv rfl).1,
    ((c8_plane_boundary ⟨false, 20, false, "plane", false⟩ emptyEdgesEnv rfl).2 rfl).1,
    ((c8_plane_boundary ⟨false, 20, false, "plane", false⟩ emptyEdgesEnv rfl).2 rfl).2.1,
    ((c8_plane_boundary ⟨false, 20, false, "plane", false⟩ emptyEdgesEnv rfl).2 rfl).2.2⟩

end BuildMesh
